import Mathlib

/-!
Shallow embedding of `examples/service-with-secrets/server.py`: a minimal
HTTP server exposing `/health`, `/config` and `/secrets`, reporting the
presence (not the value) of configuration and secret environment variables.

The embedding models:
* Python `json.dumps` on objects whose values are strings or booleans,
  both compact (default separators) and with `indent=2`, including the
  `ensure_ascii` string escaping;
* the process environment as a partial map from variable names to values
  (`os.environ.get` returning `None` for absent variables);
* Python string truthiness (`bool(x)` is `False` for `None` and `""`);
* the request handler `Handler.do_GET` as a function from the environment
  snapshot and the request path to the HTTP response (status, the single
  `Content-Type` header it may send, and the body text written to `wfile`);
* a statement-level state-passing version of the handler (`do_GET_st`)
  that threads the process state and the connection explicitly, used to
  express frame/purity properties.
-/

/-- Lowercase hexadecimal digit, as used by Python `\uXXXX` escapes. -/
def hexDigit (n : Nat) : Char :=
  if n < 10 then Char.ofNat (48 + n) else Char.ofNat (87 + n)

/-- Four lowercase hexadecimal digits (Python `"\u%04x"`). -/
def hex4 (n : Nat) : String :=
  String.mk [hexDigit (n / 4096 % 16), hexDigit (n / 256 % 16),
             hexDigit (n / 16 % 16), hexDigit (n % 16)]

/-- Escape one character the way Python `json.dumps` (default
`ensure_ascii=True`) does: short escapes for `"` `\` and the control
characters that have them, printable ASCII unchanged, everything else as
`\uXXXX`, with surrogate pairs above `U+FFFF`. -/
def escapeChar (c : Char) : String :=
  if c = Char.ofNat 34 then "\\\""
  else if c = Char.ofNat 92 then "\\\\"
  else if c = Char.ofNat 8 then "\\b"
  else if c = Char.ofNat 9 then "\\t"
  else if c = Char.ofNat 10 then "\\n"
  else if c = Char.ofNat 12 then "\\f"
  else if c = Char.ofNat 13 then "\\r"
  else if 32 ≤ c.toNat ∧ c.toNat ≤ 126 then String.singleton c
  else if c.toNat < 65536 then "\\u" ++ hex4 c.toNat
  else "\\u" ++ hex4 (55296 + (c.toNat - 65536) / 1024)
       ++ "\\u" ++ hex4 (56320 + (c.toNat - 65536) % 1024)

/-- A JSON string literal: the escaped characters between double quotes. -/
def jsonEscape (s : String) : String :=
  "\"" ++ String.join (s.toList.map escapeChar) ++ "\""

/-- The JSON values this server ever serializes: strings and booleans. -/
inductive JVal where
  | jstr (s : String)
  | jbool (b : Bool)
deriving DecidableEq

/-- Serialization of one JSON value. -/
def JVal.dump : JVal → String
  | .jstr s => jsonEscape s
  | .jbool true => "true"
  | .jbool false => "false"

/-- One `"key": value` member of a JSON object. -/
def dumpMember (kv : String × JVal) : String :=
  jsonEscape kv.1 ++ ": " ++ kv.2.dump

/-- Python `json.dumps(obj)` with the default separators, on an object
with string keys (in insertion order, as Python dicts preserve). -/
def dumpsCompact (obj : List (String × JVal)) : String :=
  match obj with
  | [] => "\x7b\x7d"
  | _ => "\x7b" ++ String.intercalate ", " (obj.map dumpMember) ++ "\x7d"

/-- Python `json.dumps(obj, indent=2)`. -/
def dumpsIndent2 (obj : List (String × JVal)) : String :=
  match obj with
  | [] => "\x7b\x7d"
  | _ => "\x7b\n" ++
         String.intercalate ",\n" (obj.map fun kv => "  " ++ dumpMember kv) ++
         "\n\x7d"

/-- The process environment snapshot: `os.environ.get k` is `env k`. -/
def Env : Type := String → Option String

/-- Python truthiness of `os.environ.get(k)`: `bool(None)` and `bool("")`
are `False`, any non-empty string is `True`. -/
def truthy (o : Option String) : Bool :=
  match o with
  | none => false
  | some s => !(s == "")

/-- The payload of `/health`: `{'status': 'healthy'}`. -/
def healthPayload : List (String × JVal) := [("status", JVal.jstr "healthy")]

/-- The `config` dict built by the `/config` branch of `Handler.do_GET`. -/
def configPayload (env : Env) : List (String × JVal) :=
  [("database_url", JVal.jstr ((env "DATABASE_URL").getD "not_set")),
   ("api_key_present", JVal.jbool (truthy (env "API_KEY"))),
   ("app_config", JVal.jstr ((env "APP_CONFIG").getD "not_set")),
   ("feature_flags", JVal.jstr ((env "FEATURE_FLAGS").getD "not_set")),
   ("environment", JVal.jstr ((env "ENVIRONMENT").getD "not_set"))]

/-- The `secrets` dict built by the `/secrets` branch of `Handler.do_GET`. -/
def secretsPayload (env : Env) : List (String × JVal) :=
  [("db_password_loaded", JVal.jbool (truthy (env "DB_PASSWORD"))),
   ("jwt_secret_loaded", JVal.jbool (truthy (env "JWT_SECRET"))),
   ("encryption_key_loaded", JVal.jbool (truthy (env "ENCRYPTION_KEY")))]

/-- An HTTP response as observable from this handler: the status code,
the `Content-Type` header if the handler sent one, and the body text
written to `wfile` (the wire carries its UTF-8 encoding). -/
structure Response where
  status : Nat
  contentType : Option String
  body : String
deriving DecidableEq

/-- `Handler.do_GET`: exact path dispatch over the three known routes,
anything else answered with a bare 404. -/
def do_GET (env : Env) (path : String) : Response :=
  if path = "/health" then
    { status := 200, contentType := some "application/json",
      body := dumpsCompact healthPayload }
  else if path = "/config" then
    { status := 200, contentType := some "application/json",
      body := dumpsIndent2 (configPayload env) }
  else if path = "/secrets" then
    { status := 200, contentType := some "application/json",
      body := dumpsIndent2 (secretsPayload env) }
  else
    { status := 404, contentType := none, body := "" }

/-- The body bytes put on the wire: `str.encode()` is UTF-8. -/
def bodyBytes (r : Response) : List UInt8 := r.body.toUTF8.toList

/-- The spec's derivation of a `/config` string field: the value of the
variable, or the literal string `not_set` if absent. -/
def specConfigString (env : Env) (k : String) : String :=
  match env k with
  | none => "not_set"
  | some v => v

/-- `needle` occurs contiguously inside `hay`. -/
def substringOf (needle hay : String) : Prop :=
  needle.toList <:+: hay.toList

instance (n h : String) : Decidable (substringOf n h) :=
  List.decidableInfix n.toList h.toList

/-- Removing one variable from the environment. -/
def eraseVar (env : Env) (k : String) : Env :=
  fun x => if x = k then none else env x

/-- The eight environment variables the server consumes. -/
def trackedVars : List String :=
  ["DATABASE_URL", "API_KEY", "APP_CONFIG", "FEATURE_FLAGS", "ENVIRONMENT",
   "DB_PASSWORD", "JWT_SECRET", "ENCRYPTION_KEY"]

/-- The four variables `/config` echoes as strings (default `not_set`). -/
def configStringVars : List String :=
  ["DATABASE_URL", "APP_CONFIG", "FEATURE_FLAGS", "ENVIRONMENT"]

/-- The connection-side state the handler writes through: the status line
sent, the headers sent, and the bytes written to `wfile` (as text). -/
structure Conn where
  statusSent : Option Nat
  headers : List (String × String)
  wire : String
deriving DecidableEq

/-- The process state the handler can read: the environment snapshot
(`os.environ`). The handler touches no other process state. -/
structure ProcState where
  environ : Env

/-- A fresh connection, before any part of a response is sent. -/
def initConn : Conn := { statusSent := none, headers := [], wire := "" }

/-- `self.send_response(n)`. -/
def send_response (c : Conn) (n : Nat) : Conn := { c with statusSent := some n }

/-- `self.send_header(k, v)`. -/
def send_header (c : Conn) (k v : String) : Conn :=
  { c with headers := c.headers ++ [(k, v)] }

/-- `self.wfile.write(b)`. -/
def wfile_write (c : Conn) (b : String) : Conn := { c with wire := c.wire ++ b }

/-- `os.environ.get(k)`: a read returning the (possibly absent) value and
the process state it leaves behind. -/
def environ_read (s : ProcState) (k : String) : ProcState × Option String :=
  (s, s.environ k)

/-- Statement-by-statement translation of `Handler.do_GET`, threading the
process state and the connection explicitly. -/
def do_GET_st (s : ProcState) (c : Conn) (path : String) : ProcState × Conn :=
  if path = "/health" then
    let c := send_response c 200
    let c := send_header c "Content-Type" "application/json"
    let c := wfile_write c (dumpsCompact [("status", JVal.jstr "healthy")])
    (s, c)
  else if path = "/config" then
    let c := send_response c 200
    let c := send_header c "Content-Type" "application/json"
    let r1 := environ_read s "DATABASE_URL"
    let r2 := environ_read r1.1 "API_KEY"
    let r3 := environ_read r2.1 "APP_CONFIG"
    let r4 := environ_read r3.1 "FEATURE_FLAGS"
    let r5 := environ_read r4.1 "ENVIRONMENT"
    let config : List (String × JVal) :=
      [("database_url", JVal.jstr (r1.2.getD "not_set")),
       ("api_key_present", JVal.jbool (truthy r2.2)),
       ("app_config", JVal.jstr (r3.2.getD "not_set")),
       ("feature_flags", JVal.jstr (r4.2.getD "not_set")),
       ("environment", JVal.jstr (r5.2.getD "not_set"))]
    let c := wfile_write c (dumpsIndent2 config)
    (r5.1, c)
  else if path = "/secrets" then
    let c := send_response c 200
    let c := send_header c "Content-Type" "application/json"
    let r1 := environ_read s "DB_PASSWORD"
    let r2 := environ_read r1.1 "JWT_SECRET"
    let r3 := environ_read r2.1 "ENCRYPTION_KEY"
    let secrets : List (String × JVal) :=
      [("db_password_loaded", JVal.jbool (truthy r1.2)),
       ("jwt_secret_loaded", JVal.jbool (truthy r2.2)),
       ("encryption_key_loaded", JVal.jbool (truthy r3.2))]
    let c := wfile_write c (dumpsIndent2 secrets)
    (r3.1, c)
  else
    let c := send_response c 404
    (s, c)

/-- What writing a `Response` does to a connection: the status is sent,
the `Content-Type` header (when there is one) is appended, the body is
appended to the wire. -/
def applyResponse (c : Conn) (r : Response) : Conn :=
  { statusSent := some r.status,
    headers := c.headers ++ (match r.contentType with
      | none => []
      | some t => [("Content-Type", t)]),
    wire := c.wire ++ r.body }

/-- Handling a sequence of requests, each on a fresh connection. -/
def serve (s : ProcState) : List String → ProcState × List Conn
  | [] => (s, [])
  | p :: ps =>
    let first := do_GET_st s initConn p
    let rest := serve first.1 ps
    (rest.1, first.2 :: rest.2)

/-- The empty environment: no variable set. -/
def envUnset : Env := fun _ => none

/-- Spec scenario 3: `DB_PASSWORD=secret`, `JWT_SECRET` unset,
`ENCRYPTION_KEY=""` (empty). -/
def envScenario3 : Env := fun k =>
  if k = "DB_PASSWORD" then some "secret"
  else if k = "ENCRYPTION_KEY" then some "" else none

/-- An environment whose secret value coincides with JSON template text. -/
def envTrueSecret : Env := fun k =>
  if k = "DB_PASSWORD" then some "true" else none

/-- `DATABASE_URL` set to the empty string, nothing else set. -/
def envEmptyUrl : Env := fun k =>
  if k = "DATABASE_URL" then some "" else none

/-- `API_KEY` set to the empty string, nothing else set. -/
def envEmptyApiKey : Env := fun k =>
  if k = "API_KEY" then some "" else none

/-- Every variable set to the empty string. -/
def envAllEmpty : Env := fun _ => some ""

/-- `DB_PASSWORD` set to one non-empty secret, `DATABASE_URL` to noise. -/
def envSecretA : Env := fun k =>
  if k = "DB_PASSWORD" then some "hunter2"
  else if k = "DATABASE_URL" then some "postgres://a" else none

/-- `DB_PASSWORD` set to a different non-empty secret, `JWT_SECRET` empty. -/
def envSecretB : Env := fun k =>
  if k = "DB_PASSWORD" then some "x"
  else if k = "JWT_SECRET" then some "" else none

/-- The five config variables as in spec scenario 2, secrets absent. -/
def envConfigA : Env := fun k =>
  if k = "DATABASE_URL" then some "postgres://x"
  else if k = "API_KEY" then some "abc123" else none

/-- Same config variables as `envConfigA`, but secrets also set. -/
def envConfigB : Env := fun k =>
  if k = "DATABASE_URL" then some "postgres://x"
  else if k = "API_KEY" then some "abc123"
  else if k = "DB_PASSWORD" then some "supersecret" else none

/-- Truthiness agrees with the spec notion of present: set and non-empty. -/
theorem truthy_iff (o : Option String) :
    truthy o = true ↔ ∃ v, o = some v ∧ v ≠ "" := by
  cases o with
  | none => simp [truthy]
  | some v => simp [truthy]

/-- The code's default lookup agrees with the spec's field derivation. -/
theorem getD_eq_specConfigString (env : Env) (k : String) :
    (env k).getD "not_set" = specConfigString env k := by
  cases h : env k <;> simp [specConfigString, h]

/-- C1: for every environment, `GET /config` returns status 200 with a
JSON object having exactly the keys `database_url`, `api_key_present`,
`app_config`, `feature_flags`, `environment`; the string fields are the
exact values of `DATABASE_URL`, `APP_CONFIG`, `FEATURE_FLAGS`,
`ENVIRONMENT` (echoed untransformed) or the literal `not_set` when the
variable is absent, and `api_key_present` is a boolean that is true iff
`API_KEY` is set and non-empty. -/
theorem config_route_contract (env : Env) :
    (do_GET env "/config").status = 200 ∧
    (do_GET env "/config").body = dumpsIndent2 (configPayload env) ∧
    (configPayload env).map Prod.fst =
      ["database_url", "api_key_present", "app_config", "feature_flags",
       "environment"] ∧
    List.lookup "database_url" (configPayload env) =
      some (JVal.jstr (specConfigString env "DATABASE_URL")) ∧
    List.lookup "app_config" (configPayload env) =
      some (JVal.jstr (specConfigString env "APP_CONFIG")) ∧
    List.lookup "feature_flags" (configPayload env) =
      some (JVal.jstr (specConfigString env "FEATURE_FLAGS")) ∧
    List.lookup "environment" (configPayload env) =
      some (JVal.jstr (specConfigString env "ENVIRONMENT")) ∧
    List.lookup "api_key_present" (configPayload env) =
      some (JVal.jbool (truthy (env "API_KEY"))) ∧
    (truthy (env "API_KEY") = true ↔
      ∃ v, env "API_KEY" = some v ∧ v ≠ "") := by
  refine ⟨by simp [do_GET], by simp [do_GET], rfl, ?_, ?_, ?_, ?_, ?_,
    truthy_iff (env "API_KEY")⟩ <;>
    simp [configPayload, List.lookup, getD_eq_specConfigString]

/-- C2: for every environment, `GET /secrets` returns status 200 with a
JSON object having exactly the keys `db_password_loaded`,
`jwt_secret_loaded`, `encryption_key_loaded`, each a boolean true iff the
corresponding variable (`DB_PASSWORD`, `JWT_SECRET`, `ENCRYPTION_KEY`) is
set and non-empty; with `DB_PASSWORD=secret`, `JWT_SECRET` unset and
`ENCRYPTION_KEY=""` the body is the pretty-printed object with flags
true, false, false. -/
theorem secrets_route_contract (env : Env) :
    (do_GET env "/secrets").status = 200 ∧
    (do_GET env "/secrets").body = dumpsIndent2 (secretsPayload env) ∧
    (secretsPayload env).map Prod.fst =
      ["db_password_loaded", "jwt_secret_loaded", "encryption_key_loaded"] ∧
    List.lookup "db_password_loaded" (secretsPayload env) =
      some (JVal.jbool (truthy (env "DB_PASSWORD"))) ∧
    List.lookup "jwt_secret_loaded" (secretsPayload env) =
      some (JVal.jbool (truthy (env "JWT_SECRET"))) ∧
    List.lookup "encryption_key_loaded" (secretsPayload env) =
      some (JVal.jbool (truthy (env "ENCRYPTION_KEY"))) ∧
    (truthy (env "DB_PASSWORD") = true ↔
      ∃ v, env "DB_PASSWORD" = some v ∧ v ≠ "") ∧
    (truthy (env "JWT_SECRET") = true ↔
      ∃ v, env "JWT_SECRET" = some v ∧ v ≠ "") ∧
    (truthy (env "ENCRYPTION_KEY") = true ↔
      ∃ v, env "ENCRYPTION_KEY" = some v ∧ v ≠ "") ∧
    (do_GET envScenario3 "/secrets").body =
      "\x7b\n  \"db_password_loaded\": true,\n  \"jwt_secret_loaded\": false,\n  \"encryption_key_loaded\": false\n\x7d" := by
  refine ⟨by simp [do_GET], by simp [do_GET], rfl, ?_, ?_, ?_,
    truthy_iff _, truthy_iff _, truthy_iff _, by decide⟩ <;>
    simp [secretsPayload, List.lookup]

/-- C3: for every environment, a GET request whose path is not exactly
`/health`, `/config` or `/secrets` gets status 404, an empty body and no
`Content-Type` header. -/
theorem unknown_path_404 (env : Env) (path : String)
    (h1 : path ≠ "/health") (h2 : path ≠ "/config") (h3 : path ≠ "/secrets") :
    do_GET env path = { status := 404, contentType := none, body := "" } := by
  simp [do_GET, h1, h2, h3]

/-- Witness for C3: `GET /unknown` in the empty environment. -/
theorem unknown_path_404_witness :
    do_GET envUnset "/unknown" =
      { status := 404, contentType := none, body := "" } :=
  unknown_path_404 envUnset "/unknown" (by decide) (by decide) (by decide)

/-- C7: for every environment, `GET /health` returns 200 with
`Content-Type: application/json` and body exactly the compact
`{"status": "healthy"}` object. -/
theorem health_route_contract (env : Env) :
    do_GET env "/health" =
      { status := 200, contentType := some "application/json",
        body := "\x7b\"status\": \"healthy\"\x7d" } := by
  rfl

/-- C4 counterexample: the claim that the `/secrets` body never includes
the literal value of a secret fails when the secret coincides with fixed
template text. With `DB_PASSWORD` set to the non-empty string `true`,
the literal value of `DB_PASSWORD` occurs in the `/secrets` body. -/
theorem secrets_value_occurs_counterexample :
    envTrueSecret "DB_PASSWORD" = some "true" ∧
    substringOf "true" (do_GET envTrueSecret "/secrets").body :=
  ⟨rfl, by decide⟩

/-- C4 (amended): the `/secrets` payload contains only boolean presence
flags, and the body is a function of the presence (set-and-non-empty
status) of `DB_PASSWORD`, `JWT_SECRET`, `ENCRYPTION_KEY` alone, so secret
values never flow into it; a value can occur in the body only by
coinciding with the fixed template text. -/
theorem secrets_presence_only (e1 e2 : Env)
    (h1 : truthy (e1 "DB_PASSWORD") = truthy (e2 "DB_PASSWORD"))
    (h2 : truthy (e1 "JWT_SECRET") = truthy (e2 "JWT_SECRET"))
    (h3 : truthy (e1 "ENCRYPTION_KEY") = truthy (e2 "ENCRYPTION_KEY")) :
    (do_GET e1 "/secrets").body = (do_GET e2 "/secrets").body ∧
    ∀ kv ∈ secretsPayload e1, ∃ b, kv.2 = JVal.jbool b := by
  constructor
  · simp [do_GET, secretsPayload, h1, h2, h3]
  · intro kv hkv
    simp [secretsPayload] at hkv
    rcases hkv with h | h | h <;> subst h <;> exact ⟨_, rfl⟩

/-- Witness for the amended C4: two environments with different secret
values but the same presence flags get the same `/secrets` body. -/
theorem secrets_presence_only_witness :
    (do_GET envSecretA "/secrets").body = (do_GET envSecretB "/secrets").body ∧
    ∀ kv ∈ secretsPayload envSecretA, ∃ b, kv.2 = JVal.jbool b :=
  secrets_presence_only envSecretA envSecretB (by decide) (by decide)
    (by decide)

/-- C5 counterexample: setting `DATABASE_URL` to the empty string does
not produce the same response as unsetting it — `/config` echoes the
empty string instead of `not_set`. -/
theorem empty_vs_unset_counterexample :
    envEmptyUrl "DATABASE_URL" = some "" ∧
    eraseVar envEmptyUrl "DATABASE_URL" "DATABASE_URL" = none ∧
    do_GET envEmptyUrl "/config" ≠
      do_GET (eraseVar envEmptyUrl "DATABASE_URL") "/config" :=
  ⟨rfl, rfl, by decide⟩

/-- C5 (amended): empty-equals-unset holds for every tracked variable and
every path, except for the four `/config` string variables on the
`/config` path itself, where an empty value passes through as `""`
instead of `not_set`. -/
theorem empty_equals_unset_amended (env : Env) (k path : String)
    (hk : k ∈ trackedVars) (h : env k = some "")
    (hex : k ∈ configStringVars → path ≠ "/config") :
    do_GET env path = do_GET (eraseVar env k) path := by
  have hkcases : k = "DATABASE_URL" ∨ k = "API_KEY" ∨ k = "APP_CONFIG" ∨
      k = "FEATURE_FLAGS" ∨ k = "ENVIRONMENT" ∨ k = "DB_PASSWORD" ∨
      k = "JWT_SECRET" ∨ k = "ENCRYPTION_KEY" := by
    simpa [trackedVars] using hk
  by_cases hp1 : path = "/health"
  · simp [do_GET, hp1]
  by_cases hp2 : path = "/config"
  · subst hp2
    have hnot : k ∉ configStringVars := fun hm => hex hm rfl
    have hk4 : k = "API_KEY" ∨ k = "DB_PASSWORD" ∨ k = "JWT_SECRET" ∨
        k = "ENCRYPTION_KEY" := by
      rcases hkcases with h' | h' | h' | h' | h' | h' | h' | h' <;>
        subst h' <;> simp [configStringVars] at hnot ⊢
    rcases hk4 with h' | h' | h' | h' <;> subst h' <;>
      simp [do_GET, configPayload, eraseVar, truthy, h]
  by_cases hp3 : path = "/secrets"
  · subst hp3
    rcases hkcases with h' | h' | h' | h' | h' | h' | h' | h' <;> subst h' <;>
      simp [do_GET, secretsPayload, eraseVar, truthy, h]
  · simp [do_GET, hp1, hp2, hp3]

/-- Witness for the amended C5: `API_KEY=""` and `API_KEY` unset give the
same `/config` response. -/
theorem empty_equals_unset_amended_witness :
    do_GET envEmptyApiKey "/config" =
      do_GET (eraseVar envEmptyApiKey "API_KEY") "/config" :=
  empty_equals_unset_amended envEmptyApiKey "API_KEY" "/config"
    (by decide) rfl (by decide)

/-- C6: with every tracked variable explicitly set to the empty string,
all presence flags are false and the `/secrets` response is identical to
the all-unset one, but the `/config` string fields pass the empty string
through literally, so the `/config` body differs from the all-unset one
(the `not_set` default only triggers on absence). -/
theorem empty_string_passthrough (env : Env)
    (hA : env "API_KEY" = some "") (hD : env "DB_PASSWORD" = some "")
    (hJ : env "JWT_SECRET" = some "") (hE : env "ENCRYPTION_KEY" = some "")
    (hU : env "DATABASE_URL" = some "") (hC : env "APP_CONFIG" = some "")
    (hF : env "FEATURE_FLAGS" = some "") (hV : env "ENVIRONMENT" = some "") :
    truthy (env "API_KEY") = false ∧
    truthy (env "DB_PASSWORD") = false ∧
    truthy (env "JWT_SECRET") = false ∧
    truthy (env "ENCRYPTION_KEY") = false ∧
    do_GET env "/secrets" = do_GET envUnset "/secrets" ∧
    (do_GET env "/config").body = dumpsIndent2
      [("database_url", JVal.jstr ""), ("api_key_present", JVal.jbool false),
       ("app_config", JVal.jstr ""), ("feature_flags", JVal.jstr ""),
       ("environment", JVal.jstr "")] ∧
    (do_GET env "/config").body ≠ (do_GET envUnset "/config").body := by
  have hbody : (do_GET env "/config").body = dumpsIndent2
      [("database_url", JVal.jstr ""), ("api_key_present", JVal.jbool false),
       ("app_config", JVal.jstr ""), ("feature_flags", JVal.jstr ""),
       ("environment", JVal.jstr "")] := by
    simp [do_GET, configPayload, truthy, hU, hA, hC, hF, hV]
  refine ⟨by simp [truthy, hA], by simp [truthy, hD], by simp [truthy, hJ],
    by simp [truthy, hE], ?_, hbody, ?_⟩
  · simp [do_GET, secretsPayload, truthy, hD, hJ, hE, envUnset]
  · rw [hbody]
    decide

/-- Witness for C6: the all-empty-string environment. -/
theorem empty_string_passthrough_witness :
    truthy (envAllEmpty "API_KEY") = false ∧
    truthy (envAllEmpty "DB_PASSWORD") = false ∧
    truthy (envAllEmpty "JWT_SECRET") = false ∧
    truthy (envAllEmpty "ENCRYPTION_KEY") = false ∧
    do_GET envAllEmpty "/secrets" = do_GET envUnset "/secrets" ∧
    (do_GET envAllEmpty "/config").body = dumpsIndent2
      [("database_url", JVal.jstr ""), ("api_key_present", JVal.jbool false),
       ("app_config", JVal.jstr ""), ("feature_flags", JVal.jstr ""),
       ("environment", JVal.jstr "")] ∧
    (do_GET envAllEmpty "/config").body ≠ (do_GET envUnset "/config").body :=
  empty_string_passthrough envAllEmpty rfl rfl rfl rfl rfl rfl rfl rfl

/-- C8: for every environment the successful bodies are the UTF-8
encoding of JSON text; `/config` and `/secrets` are pretty-printed with
2-space indentation, `/health` is compact, and `Content-Type:
application/json` is set on all three named routes. -/
theorem wire_format (env : Env) :
    (do_GET env "/health").contentType = some "application/json" ∧
    (do_GET env "/config").contentType = some "application/json" ∧
    (do_GET env "/secrets").contentType = some "application/json" ∧
    (do_GET env "/health").body = dumpsCompact healthPayload ∧
    (do_GET env "/config").body = dumpsIndent2 (configPayload env) ∧
    (do_GET env "/secrets").body = dumpsIndent2 (secretsPayload env) ∧
    bodyBytes (do_GET env "/health") =
      (dumpsCompact healthPayload).toUTF8.toList ∧
    bodyBytes (do_GET env "/config") =
      (dumpsIndent2 (configPayload env)).toUTF8.toList ∧
    bodyBytes (do_GET env "/secrets") =
      (dumpsIndent2 (secretsPayload env)).toUTF8.toList ∧
    (do_GET env "/health").body = "\x7b\"status\": \"healthy\"\x7d" ∧
    (do_GET envUnset "/config").body =
      "\x7b\n  \"database_url\": \"not_set\",\n  \"api_key_present\": false,\n  \"app_config\": \"not_set\",\n  \"feature_flags\": \"not_set\",\n  \"environment\": \"not_set\"\n\x7d" :=
  ⟨rfl, rfl, rfl, rfl, rfl, rfl, rfl, rfl, rfl, rfl, by decide⟩

/-- The statement-level handler equals: leave the process state alone and
write exactly the response determined by the path and the environment. -/
theorem do_GET_st_spec (s : ProcState) (c : Conn) (path : String) :
    do_GET_st s c path = (s, applyResponse c (do_GET s.environ path)) := by
  by_cases hp1 : path = "/health"
  · simp [do_GET_st, do_GET, hp1, applyResponse, send_response, send_header,
      wfile_write, environ_read, healthPayload]
  by_cases hp2 : path = "/config"
  · simp [do_GET_st, do_GET, hp1, hp2, applyResponse, send_response,
      send_header, wfile_write, environ_read, configPayload]
  by_cases hp3 : path = "/secrets"
  · simp [do_GET_st, do_GET, hp1, hp2, hp3, applyResponse, send_response,
      send_header, wfile_write, environ_read, secretsPayload]
  · simp [do_GET_st, do_GET, hp1, hp2, hp3, applyResponse, send_response,
      wfile_write, String.append_empty]

/-- Serving a request sequence leaves the state unchanged and answers
each request from the same environment snapshot. -/
theorem serve_spec (s : ProcState) (ps : List String) :
    serve s ps =
      (s, ps.map fun p => applyResponse initConn (do_GET s.environ p)) := by
  induction ps with
  | nil => rfl
  | cons p ps ih => simp [serve, do_GET_st_spec, ih]

/-- C9: handling a GET request has no side effect beyond writing the
HTTP response: the process state (the environment snapshot, the only
state the handler touches) is unchanged, the connection receives exactly
the response determined by the request path and the environment, and a
sequence of requests is answered pointwise with no cross-request state. -/
theorem handler_stateless (s : ProcState) (c : Conn) (path : String)
    (ps : List String) :
    (do_GET_st s c path).1 = s ∧
    (do_GET_st s c path).2 = applyResponse c (do_GET s.environ path) ∧
    (serve s ps).1 = s ∧
    (serve s ps).2 =
      ps.map fun p => applyResponse initConn (do_GET s.environ p) := by
  refine ⟨?_, ?_, ?_, ?_⟩ <;> simp [do_GET_st_spec, serve_spec]

/-- C10: each endpoint's response depends only on its own variables: two
environments agreeing on the presence of the three secret variables get
identical `/secrets` responses, and two environments agreeing on the
values of the five config variables get identical `/config` responses. -/
theorem route_isolation (e1 e2 : Env) :
    ((truthy (e1 "DB_PASSWORD") = truthy (e2 "DB_PASSWORD") ∧
      truthy (e1 "JWT_SECRET") = truthy (e2 "JWT_SECRET") ∧
      truthy (e1 "ENCRYPTION_KEY") = truthy (e2 "ENCRYPTION_KEY")) →
      do_GET e1 "/secrets" = do_GET e2 "/secrets") ∧
    ((e1 "DATABASE_URL" = e2 "DATABASE_URL" ∧
      e1 "API_KEY" = e2 "API_KEY" ∧
      e1 "APP_CONFIG" = e2 "APP_CONFIG" ∧
      e1 "FEATURE_FLAGS" = e2 "FEATURE_FLAGS" ∧
      e1 "ENVIRONMENT" = e2 "ENVIRONMENT") →
      do_GET e1 "/config" = do_GET e2 "/config") := by
  constructor
  · rintro ⟨h1, h2, h3⟩
    simp [do_GET, secretsPayload, h1, h2, h3]
  · rintro ⟨h1, h2, h3, h4, h5⟩
    simp [do_GET, configPayload, h1, h2, h3, h4, h5]

/-- Witness for C10: concrete environments differing only in variables
the respective route does not consume get identical responses. -/
theorem route_isolation_witness :
    do_GET envSecretA "/secrets" = do_GET envSecretB "/secrets" ∧
    do_GET envConfigA "/config" = do_GET envConfigB "/config" :=
  ⟨(route_isolation envSecretA envSecretB).1 (by decide),
   (route_isolation envConfigA envConfigB).2 (by decide)⟩
